import Mathlib

/-!
# Verification of the Master-Sql mock SQL engine and its UI boundary

Shallow embedding of the mock SQL execution engine of the Master-Sql
educational web application (`executeMockSql`, `getDbSchema`, `resetDb`
from `services/mockSql`) together with the pure parts of its UI callers
(`src/vite.config.ts` — concatenated application source): the two CSV
exporters and the editor autocomplete.

The engine module `services/mockSql.ts` itself is not part of the provided
sources; only its callers are.  Engine definitions below are therefore
modelled from the specification (each such definition's doc comment starts
with `Modelled from the spec:`), while the CSV exporters, the autocomplete
logic and the field names of the schema snapshot consumed by the UI are
transliterated from `src/vite.config.ts`.
-/

namespace MasterSql

/-- Scalar values of the engine.  The spec's data model (§3) closes the
value universe as {integer, decimal, text, datetime, boolean, null}.
Decimals are modelled as integer cents and datetimes as their rendered
string, which keeps every operation the claims touch exact. -/
inductive Value where
  | intV  (n : Int)
  | decV  (n : Int)
  | textV (s : String)
  | dateV (s : String)
  | boolV (b : Bool)
  | nullV
deriving DecidableEq, Repr

/-- JavaScript `String(c)` on a result cell, as used by both CSV exporters
and the clipboard copy in `src/vite.config.ts`. -/
def jsString : Value → String
  | .intV n  => toString n
  | .decV n  => toString n
  | .textV s => s
  | .dateV s => s
  | .boolV b => if b then "true" else "false"
  | .nullV   => "null"

/-- `s.replace(/"/g, '""')`: double every double-quote character. -/
def jsEscapeQuotes (s : String) : String :=
  String.join (s.toList.map (fun c => if c = '"' then "\"\"" else String.mk [c]))

/-- `xs.join(sep)` of JavaScript. -/
def jsJoin (sep : String) : List String → String
  | []      => ""
  | [x]     => x
  | x :: xs => x ++ sep ++ jsJoin sep xs

/-- The CSV text built by `ResultViewer.handleDownloadCsv`
(src/vite.config.ts lines 264-273):
`headers = result.columns.join(',')`,
`rows = result.rows.map(r => r.map(c => c === null ? '' :
`"${String(c).replace(/"/g, '""')}"`).join(',')).join('\n')`,
blob content `` `${headers}\n${rows}` ``. -/
def handleDownloadCsvText (columns : List String) (rows : List (List Value)) : String :=
  let headers := jsJoin "," columns
  let body := jsJoin "\n" (rows.map (fun r =>
    jsJoin "," (r.map (fun c =>
      if c = Value.nullV then "" else "\"" ++ jsEscapeQuotes (jsString c) ++ "\""))))
  headers ++ "\n" ++ body

/-- The CSV text built by `PlaygroundPage.handleDownloadCSV`
(src/vite.config.ts lines 1470-1479), transliterated independently of
`handleDownloadCsvText`; the two source functions are textually duplicated
code. -/
def handleDownloadCSVText (columns : List String) (rows : List (List Value)) : String :=
  let headers := jsJoin "," columns
  let body := jsJoin "\n" (rows.map (fun r =>
    jsJoin "," (r.map (fun c =>
      if c = Value.nullV then "" else "\"" ++ jsEscapeQuotes (jsString c) ++ "\""))))
  headers ++ "\n" ++ body

/-! ## Editor autocomplete (`SqlEditor.handleInput`, src/vite.config.ts) -/

/-- A suggestion candidate: label plus kind, as in the `Candidate`
interface of the source. -/
structure Candidate where
  label : String
  type  : String
deriving DecidableEq, Repr

/-- The separator class of the split regex `/[\s,();.]+/` in
`handleInput`. -/
def isSepChar (c : Char) : Bool :=
  c.isWhitespace || c = ',' || c = '(' || c = ')' || c = ';' || c = '.'

/-- Worker for `jsSplitSeps`: JavaScript `split` on a `[...]+` character
class collapses runs of separators into single boundaries but keeps a
leading/trailing empty field. -/
def jsSplitGo : List Char → List Char → Bool → List String
  | [], acc, _ => [String.mk acc.reverse]
  | c :: cs, acc, inRun =>
    if isSepChar c then
      if inRun then jsSplitGo cs [] true
      else String.mk acc.reverse :: jsSplitGo cs [] true
    else jsSplitGo cs (c :: acc) false

/-- `textBeforeCaret.split(/[\s,();.]+/)` of `handleInput`. -/
def jsSplitSeps (s : String) : List String :=
  jsSplitGo s.toList [] false

/-- The suggestion-box state kept by `SqlEditor` (the fields the claims
are about; pixel coordinates omitted). -/
structure SuggestState where
  list        : List Candidate
  activeIndex : Nat
  visible     : Bool
deriving Repr

/-- JavaScript `s.toUpperCase()` on the ASCII identifiers and keywords the
editor handles. -/
def jsToUpper (s : String) : String :=
  String.mk (s.toList.map Char.toUpper)

/-- JavaScript `s.startsWith(pre)`. -/
def jsStartsWith (s pre : String) : Bool :=
  pre.toList.isPrefixOf s.toList

/-- The word immediately before the caret, as computed by `handleInput`:
the last field of the separator split of the text before the caret. -/
def currentWordAt (val : String) (caretPos : Nat) : String :=
  (jsSplitSeps (String.mk (val.toList.take caretPos))).getLastD ""

/-- `candidates.filter(c => c.label.toUpperCase().startsWith(currentWord.toUpperCase())).slice(0, 10)`
of `handleInput`. -/
def matchesFor (candidates : List Candidate) (w : String) : List Candidate :=
  (candidates.filter (fun c => jsStartsWith (jsToUpper c.label) (jsToUpper w))).take 10

/-- `SqlEditor.handleInput` (src/vite.config.ts lines 506-534): take the
word immediately before the caret; when it is non-empty, filter the
candidates whose upper-cased label starts with its upper-cased text and
keep the first 10; show the box exactly when that match list is
non-empty, otherwise hide it keeping the previous list. -/
def handleInput (prev : SuggestState) (candidates : List Candidate)
    (val : String) (caretPos : Nat) : SuggestState :=
  if (currentWordAt val caretPos).length > 0 then
    if (matchesFor candidates (currentWordAt val caretPos)).length > 0 then
      { list := matchesFor candidates (currentWordAt val caretPos)
        activeIndex := 0, visible := true }
    else
      { prev with visible := false }
  else
    { prev with visible := false }

/-- The `SQL_KEYWORDS` constant of src/vite.config.ts, each made a
keyword candidate as in `SqlEditor.candidates`. -/
def sqlKeywordCandidates : List Candidate :=
  ["SELECT", "FROM", "WHERE", "INSERT", "INTO", "VALUES", "UPDATE", "SET", "DELETE",
   "CREATE", "TABLE", "DROP", "ALTER", "ADD", "COLUMN", "CONSTRAINT", "PRIMARY", "KEY",
   "FOREIGN", "REFERENCES",
   "JOIN", "INNER", "LEFT", "RIGHT", "FULL", "OUTER", "CROSS", "ON",
   "GROUP", "BY", "ORDER", "HAVING", "LIMIT", "TOP", "DISTINCT",
   "AND", "OR", "NOT", "NULL", "IS", "IN", "BETWEEN", "LIKE", "AS",
   "COUNT", "SUM", "AVG", "MAX", "MIN", "CAST", "CONVERT", "CASE", "WHEN", "THEN",
   "ELSE", "END"].map (fun k => { label := k, type := "keyword" })

/-! ## Catalog Store data model

`services/mockSql.ts` is not among the provided sources, so the engine
below is modelled from the specification (§3, §4.1); each definition's
doc comment names the contract it models. -/

/-- Modelled from the spec: the declared type tags of §3,
{INTEGER, TEXT, DECIMAL, DATETIME, BOOLEAN}. -/
inductive ColType where
  | integer | decimal | text | datetime | boolean
deriving DecidableEq, Repr

/-- Modelled from the spec: a Column (§3) — name, type tag, nullability
flag, optional PRIMARY KEY role.  Identity seeds and default-value
expressions are not exercised by any claim and are omitted. -/
structure Column where
  name : String
  type : ColType
  nullable : Bool
  isPrimaryKey : Bool
deriving DecidableEq, Repr

/-- Modelled from the spec: a Table (§3) — name, ordered column
definitions, ordered rows of scalar values aligned to the columns. -/
structure Table where
  name : String
  columns : List Column
  rows : List (List Value)
deriving DecidableEq, Repr

/-- Modelled from the spec: a Database (§3) — a name and its ordered
tables. -/
structure Database where
  name : String
  tables : List Table
deriving DecidableEq, Repr

/-- Modelled from the spec: the Catalog Store plus the Session (§3) —
all databases and the session's current-database selector. -/
structure EngineState where
  databases : List Database
  currentDb : String
deriving DecidableEq, Repr

/-- Modelled from the spec: the error taxonomy of §7. -/
inductive SqlError where
  | syntaxError (msg : String)
  | unknownDatabase (name : String)
  | unknownTable (name : String)
  | unknownColumn (name : String)
  | typeMismatch (colName : String)
  | columnCountMismatch
  | primaryKeyViolation (tableName : String)
  | notNullViolation (colName : String)
  | alreadyExists (name : String)
  | notFound (name : String)
  | invalidChange (colName : String)
deriving DecidableEq, Repr

/-- The user-facing message of an error (§7: errors are returned as data,
surfaced verbatim). -/
def SqlError.message : SqlError → String
  | .syntaxError m => "Syntax error: " ++ m
  | .unknownDatabase n => "Unknown database '" ++ n ++ "'."
  | .unknownTable n => "Unknown table '" ++ n ++ "'."
  | .unknownColumn n => "Unknown column '" ++ n ++ "'."
  | .typeMismatch c => "Type mismatch for column '" ++ c ++ "'."
  | .columnCountMismatch => "Column count does not match value count."
  | .primaryKeyViolation t =>
      "Violation of PRIMARY KEY constraint on table '" ++ t ++ "'."
  | .notNullViolation c => "Cannot insert NULL into column '" ++ c ++ "'."
  | .alreadyExists n => "There is already an object named '" ++ n ++ "'."
  | .notFound n => "Cannot find the object '" ++ n ++ "'."
  | .invalidChange c =>
      "Adding column '" ++ c ++ "' would violate the table's constraints."

/-- Does a value inhabit a declared column type?  `NULL` inhabits every
type; nullability is enforced separately.  Integer literals are accepted
in DECIMAL columns (§8 round-trip "after type coercion"). -/
def valueMatches : ColType → Value → Bool
  | _, .nullV => true
  | .integer, .intV _ => true
  | .decimal, .decV _ => true
  | .decimal, .intV _ => true
  | .text, .textV _ => true
  | .datetime, .dateV _ => true
  | .boolean, .boolV _ => true
  | _, _ => false

/-- Index of the primary-key column of a table, if any. -/
def pkIndex (t : Table) : Option Nat :=
  t.columns.findIdx? (·.isPrimaryKey)

/-- The values of the primary-key column across all rows ([] when the
table has no primary key). -/
def pkColVals (t : Table) : List Value :=
  match pkIndex t with
  | none => []
  | some i => t.rows.map (fun r => r.getD i Value.nullV)

/-- Pairwise distinctness of a value list. -/
def distinctB : List Value → Bool
  | [] => true
  | v :: vs => !(vs.contains v) && distinctB vs

/-- The primary-key invariant of §3: all rows have pairwise-distinct,
non-null values in the primary-key column (vacuously true without a
primary key). -/
def pkOk (t : Table) : Bool :=
  (pkColVals t).all (fun v => !(v == Value.nullV)) && distinctB (pkColVals t)

/-- Would inserting `vals` break the primary-key invariant?  True when
the value in the primary-key position is NULL or already present. -/
def pkViolates (t : Table) (vals : List Value) : Bool :=
  match pkIndex t with
  | none => false
  | some i =>
      let v := vals.getD i Value.nullV
      (v == Value.nullV) || (pkColVals t).contains v

/-- Per-column checks of an insert: type match, then NOT NULL. -/
def checkColumns : List Column → List Value → Option SqlError
  | c :: cs, v :: vs =>
      if valueMatches c.type v = false then some (.typeMismatch c.name)
      else if v == Value.nullV && !c.nullable then some (.notNullViolation c.name)
      else checkColumns cs vs
  | _, _ => none

/-- Modelled from the spec: `insert_row` (§4.1) — fails with
ColumnCountMismatch, PrimaryKeyViolation (duplicate or NULL key),
TypeMismatch or NotNullViolation, otherwise appends the row. -/
def insertRow (t : Table) (vals : List Value) : Except SqlError Table :=
  if vals.length = t.columns.length then
    if pkViolates t vals then .error (.primaryKeyViolation t.name)
    else
      match checkColumns t.columns vals with
      | some e => .error e
      | none => .ok { t with rows := t.rows ++ [vals] }
  else .error .columnCountMismatch

/-- Substitute the assigned values into one row (assignments are resolved
by column name). -/
def applyAssigns (cols : List Column) (assigns : List (String × Value))
    (row : List Value) : List Value :=
  (cols.zip row).map (fun cv =>
    match assigns.find? (fun a => a.1 == cv.1.name) with
    | some a => a.2
    | none => cv.2)

/-- The table after an UPDATE's assignments are applied to every row
matching the predicate (before constraint checking). -/
def updatedTable (t : Table) (pred : List Value → Bool)
    (assigns : List (String × Value)) : Table :=
  { t with rows := t.rows.map (fun r => if pred r then applyAssigns t.columns assigns r else r) }

/-- Modelled from the spec: `update_rows` (§4.1) — applies the
assignments to the rows matching the predicate, fails with UnknownColumn
or TypeMismatch on bad assignments and with PrimaryKeyViolation when the
updated rows would break the primary-key invariant (§3: "checked on
every insert/update"), otherwise returns the new table and the affected
row count. -/
def updateRows (t : Table) (pred : List Value → Bool)
    (assigns : List (String × Value)) : Except SqlError (Table × Nat) :=
  match assigns.find? (fun a => (t.columns.find? (fun c => c.name == a.1)).isNone) with
  | some a => .error (.unknownColumn a.1)
  | none =>
      match assigns.find? (fun a =>
          match t.columns.find? (fun c => c.name == a.1) with
          | none => true
          | some c => !(valueMatches c.type a.2)) with
      | some a => .error (.typeMismatch a.1)
      | none =>
          if pkOk (updatedTable t pred assigns) = false then
            .error (.primaryKeyViolation t.name)
          else
            .ok (updatedTable t pred assigns, (t.rows.filter pred).length)

/-- Modelled from the spec: `delete_rows` (§4.1) — removes the rows
matching the predicate and reports the affected row count (matching zero
rows is not an error, §4.3). -/
def deleteRows (t : Table) (pred : List Value → Bool) : Table × Nat :=
  ({ t with rows := t.rows.filter (fun r => !pred r) }, (t.rows.filter pred).length)

/-! ## Expressions and predicates (§4.2 predicate grammar, §4.3) -/

/-- Comparison operators of the predicate grammar. -/
inductive BinCmp where
  | eq | ne | lt | le | gt | ge
deriving DecidableEq, Repr

/-- Scalar expressions over a row: column references, literals,
comparisons, boolean connectives, `IS [NOT] NULL`. -/
inductive Expr where
  | col (name : String)
  | lit (v : Value)
  | cmp (op : BinCmp) (a b : Expr)
  | andE (a b : Expr)
  | orE (a b : Expr)
  | notE (a : Expr)
  | isNullE (a : Expr) (negated : Bool)
deriving DecidableEq, Repr

/-- A row environment: column name to value, in column order. -/
abbrev Env := List (String × Value)

/-- Equality-first integer comparison. -/
def cmpInt (a b : Int) : Ordering :=
  if a = b then .eq else if a < b then .lt else .gt

/-- Equality-first ordinal (codepoint) string comparison (§4.3: ordinal,
not locale collation). -/
def cmpStr (a b : String) : Ordering :=
  if a = b then .eq else if a < b then .lt else .gt

/-- Equality-first boolean comparison (false < true). -/
def cmpBool (a b : Bool) : Ordering :=
  if a = b then .eq else if a = false then .lt else .gt

/-- Equality-first natural comparison. -/
def cmpNat (a b : Nat) : Ordering :=
  if a = b then .eq else if a < b then .lt else .gt

/-- Type rank used only as a total fallback for cross-type ordering
(§4.3: mixed-type comparison is not expected to occur). -/
def rank : Value → Nat
  | .intV _ => 0
  | .decV _ => 0
  | .textV _ => 2
  | .dateV _ => 3
  | .boolV _ => 4
  | .nullV => 5

/-- Total comparison of non-null values: numerics numerically, strings
ordinally, cross-type by rank. -/
def valCmpTotal (a b : Value) : Ordering :=
  match a, b with
  | .intV x, .intV y => cmpInt x y
  | .intV x, .decV y => cmpInt x y
  | .decV x, .intV y => cmpInt x y
  | .decV x, .decV y => cmpInt x y
  | .textV x, .textV y => cmpStr x y
  | .dateV x, .dateV y => cmpStr x y
  | .boolV x, .boolV y => cmpBool x y
  | x, y => cmpNat (rank x) (rank y)

/-- Does an ordering outcome satisfy a comparison operator? -/
def cmpMatches (op : BinCmp) (o : Ordering) : Bool :=
  match op, o with
  | .eq, .eq => true
  | .ne, .lt => true
  | .ne, .gt => true
  | .lt, .lt => true
  | .le, .lt => true
  | .le, .eq => true
  | .gt, .gt => true
  | .ge, .gt => true
  | .ge, .eq => true
  | _, _ => false

/-- SQL comparison on values: any comparison with NULL yields NULL. -/
def applyCmp (op : BinCmp) (a b : Value) : Value :=
  if a == Value.nullV || b == Value.nullV then Value.nullV
  else Value.boolV (cmpMatches op (valCmpTotal a b))

/-- Truthiness of a predicate value (NULL and non-boolean are not true). -/
def truthy : Value → Bool
  | .boolV b => b
  | _ => false

/-- Column lookup in a row environment (first binding wins). -/
def lookupCol (env : Env) (n : String) : Value :=
  match env.find? (fun b => b.1 == n) with
  | some b => b.2
  | none => Value.nullV

/-- Expression evaluation over a row environment. -/
def evalExpr (env : Env) : Expr → Value
  | .col n => lookupCol env n
  | .lit v => v
  | .cmp op a b => applyCmp op (evalExpr env a) (evalExpr env b)
  | .andE a b => Value.boolV (truthy (evalExpr env a) && truthy (evalExpr env b))
  | .orE a b => Value.boolV (truthy (evalExpr env a) || truthy (evalExpr env b))
  | .notE a => Value.boolV (!truthy (evalExpr env a))
  | .isNullE a negated =>
      Value.boolV (if negated then !(evalExpr env a == Value.nullV)
                   else evalExpr env a == Value.nullV)

/-! ## SELECT evaluation (§4.3) -/

/-- Aggregate functions recognized in the projection list and HAVING. -/
inductive AggFn where
  | count | sum | avg | max | min
deriving DecidableEq, Repr

/-- Expressions over a group bucket: scalar expressions (evaluated on the
bucket's first row), aggregate calls (`none` argument is `COUNT(*)`),
comparisons and connectives (for HAVING). -/
inductive AggExpr where
  | aexpr (e : Expr)
  | aagg (fn : AggFn) (arg : Option Expr)
  | acmp (op : BinCmp) (a b : AggExpr)
  | aand (a b : AggExpr)
  | aor (a b : AggExpr)
  | anot (a : AggExpr)
deriving DecidableEq, Repr

/-- One projected column: a bucket expression and its output name. -/
structure ProjItem where
  ae : AggExpr
  outName : String
deriving DecidableEq, Repr

/-- Join kinds of the grammar (§4.2). -/
inductive JoinKind where
  | inner | left | right | full | cross
deriving DecidableEq, Repr

/-- One `JOIN <table> ON <predicate>` clause. -/
structure JoinClause where
  kind : JoinKind
  table : String
  onExpr : Expr
deriving DecidableEq, Repr

/-- One `ORDER BY` key: expression and direction (`desc = true` for
DESC). -/
structure OrderKey where
  e : Expr
  desc : Bool
deriving DecidableEq, Repr

/-- A parsed SELECT statement (§4.2).  `star = true` projects every
column of the resolved source. -/
structure SelectQuery where
  star : Bool
  items : List ProjItem
  table : String
  joins : List JoinClause
  whereE : Option Expr
  groupBy : List Expr
  having : Option AggExpr
  orderBy : List OrderKey
  top : Option Nat
deriving Repr

/-- The environment of one table row. -/
def envOfRow (t : Table) (r : List Value) : Env :=
  (t.columns.map (·.name)).zip r

/-- The all-NULL environment over the given column names (used to
null-pad unmatched join sides, §4.3). -/
def nullEnvOf (cols : List String) : Env :=
  cols.map (fun c => (c, Value.nullV))

/-- An intermediate relation: column names and row environments. -/
structure RelView where
  cols : List String
  rows : List Env
deriving Repr

/-- Nested-loop join of the rows so far with one table (§4.3): the ON
predicate is evaluated once per left×right row pair; unmatched sides
become null-padded rows for LEFT/RIGHT/FULL. -/
def joinRows (kind : JoinKind) (lcols : List String) (lrows : List Env)
    (rt : Table) (onE : Expr) : List Env :=
  let rEnvs := rt.rows.map (envOfRow rt)
  let rNull := nullEnvOf (rt.columns.map (·.name))
  let lNull := nullEnvOf lcols
  match kind with
  | .cross => lrows.flatMap (fun a => rEnvs.map (fun b => a ++ b))
  | .inner => lrows.flatMap (fun a =>
      (rEnvs.filter (fun b => truthy (evalExpr (a ++ b) onE))).map (fun b => a ++ b))
  | .left => lrows.flatMap (fun a =>
      let m := rEnvs.filter (fun b => truthy (evalExpr (a ++ b) onE))
      if m.isEmpty then [a ++ rNull] else m.map (fun b => a ++ b))
  | .right => rEnvs.flatMap (fun b =>
      let m := lrows.filter (fun a => truthy (evalExpr (a ++ b) onE))
      if m.isEmpty then [lNull ++ b] else m.map (fun a => a ++ b))
  | .full =>
      (lrows.flatMap (fun a =>
        let m := rEnvs.filter (fun b => truthy (evalExpr (a ++ b) onE))
        if m.isEmpty then [a ++ rNull] else m.map (fun b => a ++ b)))
      ++ ((rEnvs.filter (fun b =>
            lrows.all (fun a => !truthy (evalExpr (a ++ b) onE)))).map
          (fun b => lNull ++ b))

/-- Resolve the FROM table and fold the JOIN clauses left to right
(§4.3 step 1). -/
def resolveFrom (db : Database) (q : SelectQuery) : Except SqlError RelView :=
  match db.tables.find? (fun t => t.name == q.table) with
  | none => .error (.unknownTable q.table)
  | some t0 =>
      let start : RelView :=
        { cols := t0.columns.map (·.name), rows := t0.rows.map (envOfRow t0) }
      q.joins.foldlM (fun acc j =>
        match db.tables.find? (fun t => t.name == j.table) with
        | none => .error (.unknownTable j.table)
        | some rt => .ok
            { cols := acc.cols ++ rt.columns.map (·.name)
              rows := joinRows j.kind acc.cols acc.rows rt j.onExpr })
        start

/-- §4.3 step 2: apply WHERE. -/
def applyWhere (w : Option Expr) (rows : List Env) : List Env :=
  match w with
  | none => rows
  | some e => rows.filter (fun r => truthy (evalExpr r e))

/-- First-occurrence-order deduplication. -/
def uniqAux {α : Type} [BEq α] : List α → List α → List α
  | [], _ => []
  | k :: ks, seen =>
      if seen.contains k then uniqAux ks seen else k :: uniqAux ks (k :: seen)

/-- The group key of a row. -/
def keyOf (gb : List Expr) (env : Env) : List Value :=
  gb.map (evalExpr env)

/-- Does a bucket expression contain an aggregate call? -/
def hasAgg : AggExpr → Bool
  | .aexpr _ => false
  | .aagg _ _ => true
  | .acmp _ a b => hasAgg a || hasAgg b
  | .aand a b => hasAgg a || hasAgg b
  | .aor a b => hasAgg a || hasAgg b
  | .anot a => hasAgg a

/-- §4.3 step 3: GROUP BY bucketing — rows bucketed by equality of their
group-key tuples, buckets in first-occurrence order.  Without GROUP BY,
an aggregate projection forms one bucket of all rows, otherwise every
row is its own bucket. -/
def groupRows (gb : List Expr) (aggMode : Bool) (rows : List Env) : List (List Env) :=
  match gb with
  | [] => if aggMode then [rows] else rows.map (fun r => [r])
  | _ =>
      (uniqAux (rows.map (keyOf gb)) []).map
        (fun k => rows.filter (fun r => keyOf gb r == k))

/-- Sum of the non-null numeric values of a list, if any. -/
def sumVals (vs : List Value) : Option Int :=
  vs.foldl (fun acc v =>
    match v with
    | .intV n => some (acc.getD 0 + n)
    | .decV n => some (acc.getD 0 + n)
    | _ => acc) none

/-- Fold of the non-null values of a list by a binary choice. -/
def pickVal (keep : Value → Value → Bool) (vs : List Value) : Value :=
  vs.foldl (fun acc v =>
    if v == Value.nullV then acc
    else if acc == Value.nullV then v
    else if keep acc v then acc else v) Value.nullV

/-- Aggregate evaluation over a bucket; aggregates ignore NULL inputs,
and SUM/AVG/MAX/MIN of an empty input are NULL. -/
def evalAggFn (bucket : List Env) : AggFn → Option Expr → Value
  | .count, none => .intV bucket.length
  | .count, some e =>
      .intV (bucket.filter (fun r => !(evalExpr r e == Value.nullV))).length
  | .sum, arg =>
      match sumVals (bucket.map (fun r => (arg.map (evalExpr r)).getD Value.nullV)) with
      | none => .nullV
      | some s => .intV s
  | .avg, arg =>
      let vs := (bucket.map (fun r => (arg.map (evalExpr r)).getD Value.nullV)).filter
        (fun v => !(v == Value.nullV))
      match sumVals vs with
      | none => .nullV
      | some s => .intV (s / vs.length)
  | .max, arg =>
      pickVal (fun a b => valCmpTotal a b != .lt)
        (bucket.map (fun r => (arg.map (evalExpr r)).getD Value.nullV))
  | .min, arg =>
      pickVal (fun a b => valCmpTotal a b != .gt)
        (bucket.map (fun r => (arg.map (evalExpr r)).getD Value.nullV))

/-- Bucket-expression evaluation: scalar parts read the bucket's first
row, aggregates fold the bucket. -/
def evalAggE (bucket : List Env) : AggExpr → Value
  | .aexpr e => evalExpr (bucket.headD []) e
  | .aagg fn arg => evalAggFn bucket fn arg
  | .acmp op a b => applyCmp op (evalAggE bucket a) (evalAggE bucket b)
  | .aand a b => Value.boolV (truthy (evalAggE bucket a) && truthy (evalAggE bucket b))
  | .aor a b => Value.boolV (truthy (evalAggE bucket a) || truthy (evalAggE bucket b))
  | .anot a => Value.boolV (!truthy (evalAggE bucket a))

/-- §4.3 step 4: apply HAVING to the buckets. -/
def applyHaving (h : Option AggExpr) (buckets : List (List Env)) : List (List Env) :=
  match h with
  | none => buckets
  | some e => buckets.filter (fun b => truthy (evalAggE b e))

/-- §4.3 step 5: project each bucket through the projection items. -/
def projectBuckets (items : List ProjItem) (buckets : List (List Env)) :
    List (List Value) :=
  buckets.map (fun b => items.map (fun it => evalAggE b it.ae))

/-- ORDER BY comparison of one key pair: NULL sorts last regardless of
direction (§4.3); otherwise the total value comparison, swapped for
DESC. -/
def keyCmp (desc : Bool) (a b : Value) : Ordering :=
  match a, b with
  | .nullV, .nullV => .eq
  | .nullV, _ => .gt
  | _, .nullV => .lt
  | _, _ => if desc then (valCmpTotal a b).swap else valCmpTotal a b

/-- Lexicographic ORDER BY comparison of two key tuples. -/
def lexCmp : List OrderKey → List Value → List Value → Ordering
  | k :: ks, a :: as', b :: bs =>
      match keyCmp k.desc a b with
      | .eq => lexCmp ks as' bs
      | c => c
  | _, _, _ => .eq

/-- The ORDER BY key tuple of one projected row (keys are evaluated over
the projected columns). -/
def keyTuple (cols : List String) (ks : List OrderKey) (row : List Value) :
    List Value :=
  ks.map (fun k => evalExpr (cols.zip row) k.e)

/-- "Row does not come after" under the ORDER BY keys. -/
def rowLE (cols : List String) (ks : List OrderKey) (a b : List Value) : Bool :=
  lexCmp ks (keyTuple cols ks a) (keyTuple cols ks b) != .gt

/-- Stable insertion into a sorted list: on ties the inserted (earlier)
element stays first. -/
def insertSorted {α : Type} (le : α → α → Bool) (x : α) : List α → List α
  | [] => [x]
  | y :: ys => if le x y then x :: y :: ys else y :: insertSorted le x ys

/-- Stable insertion sort. -/
def sortByLE {α : Type} (le : α → α → Bool) : List α → List α
  | [] => []
  | x :: xs => insertSorted le x (sortByLE le xs)

/-- §4.3 step 6: stable ORDER BY with NULL last regardless of
direction. -/
def applyOrderBy (cols : List String) (ks : List OrderKey)
    (rows : List (List Value)) : List (List Value) :=
  sortByLE (rowLE cols ks) rows

/-- §4.3 step 7: TOP row limiting. -/
def applyTop {α : Type} (n : Option Nat) (rows : List α) : List α :=
  match n with
  | none => rows
  | some n => rows.take n

/-- The effective projection items: `*` projects every source column. -/
def effItems (view : RelView) (q : SelectQuery) : List ProjItem :=
  if q.star then view.cols.map (fun c => { ae := .aexpr (.col c), outName := c })
  else q.items

/-- The §4.3 pipeline after FROM/JOIN resolution: WHERE → GROUP BY →
HAVING → projection → ORDER BY → TOP. -/
def selectPipeline (q : SelectQuery) (view : RelView) :
    List String × List (List Value) :=
  let items := effItems view q
  let fromWhere := applyWhere q.whereE view.rows
  let buckets := groupRows q.groupBy (items.any (fun it => hasAgg it.ae)) fromWhere
  let kept := applyHaving q.having buckets
  let outCols := items.map (·.outName)
  (outCols, applyTop q.top (applyOrderBy outCols q.orderBy (projectBuckets items kept)))

/-- Modelled from the spec: SELECT evaluation (§4.3) — resolve FROM/JOIN,
then run the pipeline. -/
def evalSelect (db : Database) (q : SelectQuery) :
    Except SqlError (List String × List (List Value)) :=
  (resolveFrom db q).map (selectPipeline q)

/-! ## Statements and the Statement Executor (§4.2, §4.3) -/

/-- Modelled from the spec: the statement nodes of §4.2. -/
inductive Stmt where
  | useDb (name : String)
  | select (q : SelectQuery)
  | insert (table : String) (cols : Option (List String)) (vals : List Value)
  | update (table : String) (assigns : List (String × Value)) (whereE : Option Expr)
  | delete (table : String) (whereE : Option Expr)
  | createTable (name : String) (cols : List Column)
  | dropTable (name : String)
  | alterAdd (table : String) (col : Column)
deriving Repr

/-- The boundary result object of §6: exactly the optional fields
`{ columns?, rows?, message?, rowsAffected?, error? }`. -/
structure ExecResult where
  columns : Option (List String) := none
  rows : Option (List (List Value)) := none
  message : Option String := none
  rowsAffected : Option Nat := none
  error : Option String := none
deriving DecidableEq, Repr

/-- Find a database by name. -/
def findDb (st : EngineState) (n : String) : Option Database :=
  st.databases.find? (fun d => d.name == n)

/-- Replace the database of the given name. -/
def putDb (st : EngineState) (db' : Database) : EngineState :=
  { st with databases := st.databases.map (fun d => if d.name == db'.name then db' else d) }

/-- Replace the table of the given name inside a database. -/
def putTable (db : Database) (t' : Table) : Database :=
  { db with tables := db.tables.map (fun t => if t.name == t'.name then t' else t) }

/-- The WHERE predicate of a DML statement as a row predicate over a
table. -/
def rowPred (t : Table) (w : Option Expr) (r : List Value) : Bool :=
  match w with
  | none => true
  | some e => truthy (evalExpr (envOfRow t r) e)

/-- Arrange an INSERT's value list into full column order; columns not
listed receive NULL.  Fails on unknown column names or a count
mismatch. -/
def buildInsertRow (t : Table) (cols : Option (List String)) (vals : List Value) :
    Except SqlError (List Value) :=
  match cols with
  | none =>
      if vals.length = t.columns.length then .ok vals
      else .error .columnCountMismatch
  | some cs =>
      if cs.length = vals.length then
        match cs.find? (fun c => (t.columns.find? (fun tc => tc.name == c)).isNone) with
        | some c => .error (.unknownColumn c)
        | none => .ok (t.columns.map (fun col =>
            match (cs.zip vals).find? (fun cv => cv.1 == col.name) with
            | some cv => cv.2
            | none => Value.nullV))
      else .error .columnCountMismatch

/-- The success message of a DML statement. -/
def affectedMsg (n : Nat) : String :=
  "(" ++ toString n ++ " row(s) affected)"

/-- Look up the session's current database, then the addressed table. -/
def findCurrentTable (st : EngineState) (tn : String) :
    Except SqlError (Database × Table) :=
  match findDb st st.currentDb with
  | none => .error (.unknownDatabase st.currentDb)
  | some db =>
      match db.tables.find? (fun t => t.name == tn) with
      | none => .error (.unknownTable tn)
      | some t => .ok (db, t)

/-- Modelled from the spec: the Statement Executor (§4.3) — interpret one
parsed statement against the Catalog Store using the Session's current
database; `USE` switches the Session's current database.  A semantic
error yields no new state.  `ALTER TABLE ... ADD` rejects with
InvalidChange (§4.1) a column whose addition would break the
primary-key invariant, which §3 requires to hold at all times (adding a
PRIMARY KEY column to a table that already has rows would fill it with
NULL). -/
def execStmt (s : Stmt) (st : EngineState) : Except SqlError (ExecResult × EngineState) :=
  match s with
  | .useDb n =>
      match findDb st n with
      | none => .error (.unknownDatabase n)
      | some _ => .ok
          ({ message := some ("Changed database context to '" ++ n ++ "'.") },
           { st with currentDb := n })
  | .select q =>
      match findDb st st.currentDb with
      | none => .error (.unknownDatabase st.currentDb)
      | some db =>
          match evalSelect db q with
          | .error e => .error e
          | .ok (cols, rows) => .ok ({ columns := some cols, rows := some rows }, st)
  | .insert tn cols vals =>
      match findCurrentTable st tn with
      | .error e => .error e
      | .ok (db, t) =>
          match buildInsertRow t cols vals with
          | .error e => .error e
          | .ok row =>
              match insertRow t row with
              | .error e => .error e
              | .ok t' => .ok
                  ({ message := some (affectedMsg 1), rowsAffected := some 1 },
                   putDb st (putTable db t'))
  | .update tn assigns w =>
      match findCurrentTable st tn with
      | .error e => .error e
      | .ok (db, t) =>
          match updateRows t (rowPred t w) assigns with
          | .error e => .error e
          | .ok (t', n) => .ok
              ({ message := some (affectedMsg n), rowsAffected := some n },
               putDb st (putTable db t'))
  | .delete tn w =>
      match findCurrentTable st tn with
      | .error e => .error e
      | .ok (db, t) =>
          let (t', n) := deleteRows t (rowPred t w)
          .ok ({ message := some (affectedMsg n), rowsAffected := some n },
               putDb st (putTable db t'))
  | .createTable tn cols =>
      match findDb st st.currentDb with
      | none => .error (.unknownDatabase st.currentDb)
      | some db =>
          if (db.tables.find? (fun t => t.name == tn)).isSome then
            .error (.alreadyExists tn)
          else .ok
            ({ message := some "Commands completed successfully." },
             putDb st { db with tables := db.tables ++ [⟨tn, cols, []⟩] })
  | .dropTable tn =>
      match findDb st st.currentDb with
      | none => .error (.unknownDatabase st.currentDb)
      | some db =>
          if (db.tables.find? (fun t => t.name == tn)).isNone then
            .error (.notFound tn)
          else .ok
            ({ message := some "Commands completed successfully." },
             putDb st { db with tables := db.tables.filter (fun t => !(t.name == tn)) })
  | .alterAdd tn c =>
      match findCurrentTable st tn with
      | .error e => .error e
      | .ok (db, t) =>
          if (t.columns.find? (fun tc => tc.name == c.name)).isSome then
            .error (.alreadyExists c.name)
          else if pkOk { t with columns := t.columns ++ [c]
                                rows := t.rows.map (fun r => r ++ [Value.nullV]) }
              = false then
            .error (.invalidChange c.name)
          else .ok
            ({ message := some "Commands completed successfully." },
             putDb st (putTable db
               { t with columns := t.columns ++ [c]
                        rows := t.rows.map (fun r => r ++ [Value.nullV]) }))

/-- An error surfaced as data (§7: never as an uncaught failure). -/
def errorResult (e : SqlError) : ExecResult :=
  { error := some e.message }

/-- Modelled from the spec: batch execution (§4.3) — statements run in
source order; the first semantic error halts the batch, becomes its
result and leaves the state of the preceding statements; the overall
result of a fully successful batch is that of its last statement. -/
def runStmts : List Stmt → EngineState → ExecResult × EngineState
  | [], st => ({ message := some "Commands completed successfully." }, st)
  | s :: rest, st =>
      match execStmt s st with
      | .error e => (errorResult e, st)
      | .ok (r, st') =>
          match rest with
          | [] => (r, st')
          | s2 :: rest2 => runStmts (s2 :: rest2) st'

/-! ## Statement Parser (§4.2)

Modelled from the spec: the parser accepts `;`-separated statements with
`--` line comments, case-insensitive keywords and case-sensitive
identifiers, and fails with a SyntaxError without partial recovery.  The
grammar is modelled for the statement forms the claims exercise; every
text outside it is a SyntaxError, which is all the batch-level claims
depend on. -/

/-- Lexical tokens. -/
inductive Token where
  | ident (s : String)
  | num (n : Int)
  | str (s : String)
  | sym (s : String)
deriving DecidableEq, Repr

/-- Is this an identifier character? -/
def isIdentChar (c : Char) : Bool :=
  c.isAlphanum || c = '_'

/-- Split a char list at the first failure of the predicate. -/
def spanList (p : Char → Bool) : List Char → List Char × List Char
  | [] => ([], [])
  | c :: cs =>
      if p c then
        let (a, b) := spanList p cs
        (c :: a, b)
      else ([], c :: cs)

/-- Integer value of a digit run. -/
def digitsToInt (ds : List Char) : Int :=
  ds.foldl (fun acc d => acc * 10 + (Int.ofNat (d.toNat - '0'.toNat))) 0

/-- Fuel-indexed tokenizer; each step consumes at least one character, so
`length + 1` fuel always suffices.  `--` starts a line comment; `'`
delimits string literals; `-` directly before a digit run is a negative
numeric literal. -/
def tokenizeGo : Nat → List Char → List Token → Except SqlError (List Token)
  | 0, _, _ => .error (.syntaxError "input too long")
  | _ + 1, [], acc => .ok acc.reverse
  | fuel + 1, c :: cs, acc =>
      if c.isWhitespace then tokenizeGo fuel cs acc
      else if c = '-' then
        match cs with
        | '-' :: rest => tokenizeGo fuel (rest.dropWhile (fun d => !(d = '\n'))) acc
        | d :: _ =>
            if d.isDigit then
              let (ds, rest) := spanList Char.isDigit cs
              tokenizeGo fuel rest (.num (-(digitsToInt ds)) :: acc)
            else .error (.syntaxError "unexpected character '-'")
        | [] => .error (.syntaxError "unexpected character '-'")
      else if c.isDigit then
        let (ds, rest) := spanList Char.isDigit (c :: cs)
        tokenizeGo fuel rest (.num (digitsToInt ds) :: acc)
      else if isIdentChar c then
        let (ws, rest) := spanList isIdentChar (c :: cs)
        tokenizeGo fuel rest (.ident (String.mk ws) :: acc)
      else if c = '\'' then
        let (body, rest) := spanList (fun d => !(d = '\'')) cs
        match rest with
        | '\'' :: rest2 => tokenizeGo fuel rest2 (.str (String.mk body) :: acc)
        | _ => .error (.syntaxError "unterminated string literal")
      else if c = '<' then
        match cs with
        | '=' :: rest => tokenizeGo fuel rest (.sym "<=" :: acc)
        | '>' :: rest => tokenizeGo fuel rest (.sym "<>" :: acc)
        | _ => tokenizeGo fuel cs (.sym "<" :: acc)
      else if c = '>' then
        match cs with
        | '=' :: rest => tokenizeGo fuel rest (.sym ">=" :: acc)
        | _ => tokenizeGo fuel cs (.sym ">" :: acc)
      else if c = '!' then
        match cs with
        | '=' :: rest => tokenizeGo fuel rest (.sym "!=" :: acc)
        | _ => .error (.syntaxError "unexpected character '!'")
      else if c = ',' || c = '(' || c = ')' || c = ';' || c = '*' || c = '=' || c = '.' then
        tokenizeGo fuel cs (.sym (String.mk [c]) :: acc)
      else .error (.syntaxError ("unexpected character '" ++ String.mk [c] ++ "'"))

/-- Tokenize a whole batch text. -/
def tokenize (text : String) : Except SqlError (List Token) :=
  tokenizeGo (text.length + 1) text.toList []

/-- Split a token stream on `;` into statements, dropping empty
segments. -/
def splitStmtsGo : List Token → List Token → List (List Token)
  | [], cur =>
      match cur with
      | [] => []
      | _ => [cur.reverse]
  | t :: ts, cur =>
      if t == .sym ";" then
        match cur with
        | [] => splitStmtsGo ts []
        | _ => cur.reverse :: splitStmtsGo ts []
      else splitStmtsGo ts (t :: cur)

/-- Statement segments of a token stream. -/
def splitStmts (ts : List Token) : List (List Token) :=
  splitStmtsGo ts []

/-- Case-insensitive keyword test on a token. -/
def isKw (t : Token) (s : String) : Bool :=
  match t with
  | .ident i => jsToUpper i == s
  | _ => false

/-- A literal token as a value. -/
def parseLit : Token → Option Value
  | .num n => some (.intV n)
  | .str s => some (.textV s)
  | .ident i =>
      if jsToUpper i == "NULL" then some .nullV
      else if jsToUpper i == "TRUE" then some (.boolV true)
      else if jsToUpper i == "FALSE" then some (.boolV false)
      else none
  | _ => none

/-- A comparison operator token. -/
def parseOp : Token → Option BinCmp
  | .sym "=" => some .eq
  | .sym "<>" => some .ne
  | .sym "!=" => some .ne
  | .sym "<" => some .lt
  | .sym "<=" => some .le
  | .sym ">" => some .gt
  | .sym ">=" => some .ge
  | _ => none

/-- Parse a comma-separated literal list up to `)`. -/
def parseLitList : Nat → List Token → Except SqlError (List Value × List Token)
  | 0, _ => .error (.syntaxError "literal list too long")
  | fuel + 1, ts =>
      match ts with
      | t :: rest =>
          match parseLit t with
          | none => .error (.syntaxError "expected a literal")
          | some v =>
              match rest with
              | .sym "," :: rest2 =>
                  match parseLitList fuel rest2 with
                  | .error e => .error e
                  | .ok (vs, rem) => .ok (v :: vs, rem)
              | _ => .ok ([v], rest)
      | [] => .error (.syntaxError "expected a literal")

/-- Parse a comma-separated identifier list. -/
def parseIdentList : Nat → List Token → Except SqlError (List String × List Token)
  | 0, _ => .error (.syntaxError "identifier list too long")
  | fuel + 1, ts =>
      match ts with
      | .ident i :: .sym "," :: rest =>
          match parseIdentList fuel rest with
          | .error e => .error e
          | .ok (is, rem) => .ok (i :: is, rem)
      | .ident i :: rest => .ok ([i], rest)
      | _ => .error (.syntaxError "expected an identifier")

/-- Parse one comparison or `IS [NOT] NULL` tail after a column name. -/
def parsePredAtom : List Token → Except SqlError (Expr × List Token)
  | .ident c :: t :: rest =>
      if isKw t "IS" then
        match rest with
        | n1 :: n2 :: rest2 =>
            if isKw n1 "NOT" && isKw n2 "NULL" then
              .ok (.isNullE (.col c) true, rest2)
            else if isKw n1 "NULL" then
              .ok (.isNullE (.col c) false, n2 :: rest2)
            else .error (.syntaxError "expected NULL after IS")
        | [n1] =>
            if isKw n1 "NULL" then .ok (.isNullE (.col c) false, [])
            else .error (.syntaxError "expected NULL after IS")
        | [] => .error (.syntaxError "expected NULL after IS")
      else
        match parseOp t with
        | none => .error (.syntaxError "expected a comparison operator")
        | some op =>
            match rest with
            | lt :: rest2 =>
                match parseLit lt with
                | some v => .ok (.cmp op (.col c) (.lit v), rest2)
                | none =>
                    match lt with
                    | .ident c2 => .ok (.cmp op (.col c) (.col c2), rest2)
                    | _ => .error (.syntaxError "expected a literal or column")
            | [] => .error (.syntaxError "expected a right operand")
  | _ => .error (.syntaxError "expected a column name")

/-- Parse an AND/OR chain of comparison atoms. -/
def parsePred : Nat → List Token → Except SqlError (Expr × List Token)
  | 0, _ => .error (.syntaxError "predicate too long")
  | fuel + 1, ts =>
      match parsePredAtom ts with
      | .error e => .error e
      | .ok (a, rest) =>
          match rest with
          | t :: rest2 =>
              if isKw t "AND" then
                match parsePred fuel rest2 with
                | .error e => .error e
                | .ok (b, rem) => .ok (.andE a b, rem)
              else if isKw t "OR" then
                match parsePred fuel rest2 with
                | .error e => .error e
                | .ok (b, rem) => .ok (.orE a b, rem)
              else .ok (a, rest)
          | [] => .ok (a, [])

/-- Parse an optional `WHERE <predicate>` covering the rest of the
statement. -/
def parseWhereTail (ts : List Token) : Except SqlError (Option Expr) :=
  match ts with
  | [] => .ok none
  | t :: rest =>
      if isKw t "WHERE" then
        match parsePred (rest.length + 1) rest with
        | .error e => .error e
        | .ok (e, []) => .ok (some e)
        | .ok (_, _) => .error (.syntaxError "unexpected tokens after predicate")
      else .error (.syntaxError "unexpected tokens after statement")

/-- Parse one `SET` assignment list `col = literal [, ...]`. -/
def parseAssigns : Nat → List Token →
    Except SqlError (List (String × Value) × List Token)
  | 0, _ => .error (.syntaxError "assignment list too long")
  | fuel + 1, ts =>
      match ts with
      | .ident c :: .sym "=" :: v :: rest =>
          match parseLit v with
          | none => .error (.syntaxError "expected a literal value")
          | some lv =>
              match rest with
              | .sym "," :: rest2 =>
                  match parseAssigns fuel rest2 with
                  | .error e => .error e
                  | .ok (asn, rem) => .ok ((c, lv) :: asn, rem)
              | _ => .ok ([(c, lv)], rest)
      | _ => .error (.syntaxError "expected an assignment")

/-- A declared column type name. -/
def parseTypeName (s : String) : Option ColType :=
  let u := jsToUpper s
  if u == "INT" || u == "INTEGER" then some .integer
  else if u == "DECIMAL" || u == "FLOAT" || u == "MONEY" then some .decimal
  else if u == "VARCHAR" || u == "NVARCHAR" || u == "TEXT" || u == "CHAR" then some .text
  else if u == "DATETIME" || u == "DATE" then some .datetime
  else if u == "BIT" || u == "BOOLEAN" then some .boolean
  else none

/-- Skip an optional `( n [, n] )` length/precision suffix of a type. -/
def skipTypeArgs : List Token → List Token
  | .sym "(" :: .num _ :: .sym ")" :: rest => rest
  | .sym "(" :: .num _ :: .sym "," :: .num _ :: .sym ")" :: rest => rest
  | ts => ts

/-- Parse the constraint flags of one column definition up to `,` or the
closing `)`. -/
def parseColFlags : Nat → List Token → Column →
    Except SqlError (Column × List Token)
  | 0, _, _ => .error (.syntaxError "column definition too long")
  | fuel + 1, ts, c =>
      match ts with
      | t1 :: t2 :: rest =>
          if isKw t1 "PRIMARY" && isKw t2 "KEY" then
            parseColFlags fuel rest { c with isPrimaryKey := true, nullable := false }
          else if isKw t1 "NOT" && isKw t2 "NULL" then
            parseColFlags fuel rest { c with nullable := false }
          else .ok (c, ts)
      | _ => .ok (c, ts)

/-- Parse a comma-separated column-definition list up to `)`. -/
def parseColDefs : Nat → List Token → Except SqlError (List Column × List Token)
  | 0, _ => .error (.syntaxError "column list too long")
  | fuel + 1, ts =>
      match ts with
      | .ident cn :: .ident tyn :: rest =>
          match parseTypeName tyn with
          | none => .error (.syntaxError ("unknown type '" ++ tyn ++ "'"))
          | some ty =>
              match parseColFlags (rest.length + 1) (skipTypeArgs rest)
                  { name := cn, type := ty, nullable := true, isPrimaryKey := false } with
              | .error e => .error e
              | .ok (c, rem) =>
                  match rem with
                  | .sym "," :: rem2 =>
                      match parseColDefs fuel rem2 with
                      | .error e => .error e
                      | .ok (cs, rem3) => .ok (c :: cs, rem3)
                  | _ => .ok ([c], rem)
      | _ => .error (.syntaxError "expected a column definition")

/-- Parse the projection of a SELECT: `*`, `COUNT(*)`, or a
column/aggregate list. -/
def parseProjItem : List Token → Except SqlError (ProjItem × List Token)
  | t :: .sym "(" :: .sym "*" :: .sym ")" :: rest =>
      if isKw t "COUNT" then
        .ok ({ ae := .aagg .count none, outName := "COUNT(*)" }, rest)
      else .error (.syntaxError "only COUNT accepts *")
  | t :: .sym "(" :: .ident c :: .sym ")" :: rest =>
      let fn :=
        if isKw t "COUNT" then some AggFn.count
        else if isKw t "SUM" then some AggFn.sum
        else if isKw t "AVG" then some AggFn.avg
        else if isKw t "MAX" then some AggFn.max
        else if isKw t "MIN" then some AggFn.min
        else none
      match fn with
      | some f =>
          match t with
          | .ident fname =>
              .ok ({ ae := .aagg f (some (.col c)), outName := jsToUpper fname ++ "(" ++ c ++ ")" }, rest)
          | _ => .error (.syntaxError "expected an aggregate name")
      | none => .error (.syntaxError "unknown aggregate function")
  | .ident c :: rest => .ok ({ ae := .aexpr (.col c), outName := c }, rest)
  | _ => .error (.syntaxError "expected a projection item")

/-- Parse a comma-separated projection list. -/
def parseProjList : Nat → List Token → Except SqlError (List ProjItem × List Token)
  | 0, _ => .error (.syntaxError "projection list too long")
  | fuel + 1, ts =>
      match parseProjItem ts with
      | .error e => .error e
      | .ok (it, rest) =>
          match rest with
          | .sym "," :: rest2 =>
              match parseProjList fuel rest2 with
              | .error e => .error e
              | .ok (its, rem) => .ok (it :: its, rem)
          | _ => .ok ([it], rest)

/-- Parse the optional `ORDER BY col [ASC|DESC] [, ...]` tail. -/
def parseOrderKeys : Nat → List Token → Except SqlError (List OrderKey × List Token)
  | 0, _ => .error (.syntaxError "order list too long")
  | fuel + 1, ts =>
      match ts with
      | .ident c :: rest =>
          let (desc, rest2) :=
            match rest with
            | t :: r2 =>
                if isKw t "DESC" then (true, r2)
                else if isKw t "ASC" then (false, r2)
                else (false, rest)
            | [] => (false, rest)
          match rest2 with
          | .sym "," :: rest3 =>
              match parseOrderKeys fuel rest3 with
              | .error e => .error e
              | .ok (ks, rem) => .ok (⟨.col c, desc⟩ :: ks, rem)
          | _ => .ok ([⟨.col c, desc⟩], rest2)
      | _ => .error (.syntaxError "expected an order key")

/-- Parse the clause tail of a SELECT after FROM:
`[WHERE p] [GROUP BY cols [HAVING ...]] [ORDER BY keys]` (modelled for
the clause forms the claims exercise; joins are evaluated through
`evalSelect` directly). -/
def parseSelectTail (q : SelectQuery) (ts : List Token) :
    Except SqlError SelectQuery :=
  match ts with
  | [] => .ok q
  | t :: rest =>
      if isKw t "WHERE" then
        match parsePred (rest.length + 1) rest with
        | .error e => .error e
        | .ok (e, []) => .ok { q with whereE := some e }
        | .ok (e, t2 :: rest2) =>
            if isKw t2 "ORDER" then
              match rest2 with
              | b :: rest3 =>
                  if isKw b "BY" then
                    match parseOrderKeys (rest3.length + 1) rest3 with
                    | .error er => .error er
                    | .ok (ks, []) => .ok { q with whereE := some e, orderBy := ks }
                    | .ok (_, _) => .error (.syntaxError "unexpected tokens after ORDER BY")
                  else .error (.syntaxError "expected BY after ORDER")
              | [] => .error (.syntaxError "expected BY after ORDER")
            else .error (.syntaxError "unexpected tokens after predicate")
      else if isKw t "ORDER" then
        match rest with
        | b :: rest2 =>
            if isKw b "BY" then
              match parseOrderKeys (rest2.length + 1) rest2 with
              | .error e => .error e
              | .ok (ks, []) => .ok { q with orderBy := ks }
              | .ok (_, _) => .error (.syntaxError "unexpected tokens after ORDER BY")
            else .error (.syntaxError "expected BY after ORDER")
        | [] => .error (.syntaxError "expected BY after ORDER")
      else if isKw t "GROUP" then
        match rest with
        | b :: rest2 =>
            if isKw b "BY" then
              match parseIdentList (rest2.length + 1) rest2 with
              | .error e => .error e
              | .ok (cs, []) => .ok { q with groupBy := cs.map Expr.col }
              | .ok (_, _) => .error (.syntaxError "unexpected tokens after GROUP BY")
            else .error (.syntaxError "expected BY after GROUP")
        | [] => .error (.syntaxError "expected BY after GROUP")
      else .error (.syntaxError "unexpected tokens after FROM")

/-- Parse one statement's token list. -/
def parseStmt (ts : List Token) : Except SqlError Stmt :=
  match ts with
  | t :: rest =>
      if isKw t "USE" then
        match rest with
        | [.ident n] => .ok (.useDb n)
        | _ => .error (.syntaxError "expected a database name after USE")
      else if isKw t "SELECT" then
        let (top, rest1) :=
          match rest with
          | tt :: .num n :: r2 =>
              if isKw tt "TOP" && n ≥ 0 then (some n.toNat, r2) else (none, rest)
          | _ => (none, rest)
        match rest1 with
        | .sym "*" :: f :: .ident tn :: rest2 =>
            if isKw f "FROM" then
              (parseSelectTail
                { star := true, items := [], table := tn, joins := [],
                  whereE := none, groupBy := [], having := none,
                  orderBy := [], top := top } rest2).map Stmt.select
            else .error (.syntaxError "expected FROM")
        | _ =>
            match parseProjList (rest1.length + 1) rest1 with
            | .error e => .error e
            | .ok (items, f :: .ident tn :: rest2) =>
                if isKw f "FROM" then
                  (parseSelectTail
                    { star := false, items := items, table := tn, joins := [],
                      whereE := none, groupBy := [], having := none,
                      orderBy := [], top := top } rest2).map Stmt.select
                else .error (.syntaxError "expected FROM")
            | .ok (_, _) => .error (.syntaxError "expected FROM")
      else if isKw t "INSERT" then
        match rest with
        | into :: .ident tn :: rest2 =>
            if isKw into "INTO" then
              match rest2 with
              | .sym "(" :: rest3 =>
                  match parseIdentList (rest3.length + 1) rest3 with
                  | .error e => .error e
                  | .ok (cs, .sym ")" :: v :: .sym "(" :: rest4) =>
                      if isKw v "VALUES" then
                        match parseLitList (rest4.length + 1) rest4 with
                        | .error e => .error e
                        | .ok (vs, [.sym ")"]) => .ok (.insert tn (some cs) vs)
                        | .ok (_, _) => .error (.syntaxError "expected ) after VALUES")
                      else .error (.syntaxError "expected VALUES")
                  | .ok (_, _) => .error (.syntaxError "expected ) after column list")
              | v :: .sym "(" :: rest3 =>
                  if isKw v "VALUES" then
                    match parseLitList (rest3.length + 1) rest3 with
                    | .error e => .error e
                    | .ok (vs, [.sym ")"]) => .ok (.insert tn none vs)
                    | .ok (_, _) => .error (.syntaxError "expected ) after VALUES")
                  else .error (.syntaxError "expected VALUES")
              | _ => .error (.syntaxError "expected VALUES or a column list")
            else .error (.syntaxError "expected INTO after INSERT")
        | _ => .error (.syntaxError "expected a table name after INSERT INTO")
      else if isKw t "UPDATE" then
        match rest with
        | .ident tn :: setT :: rest2 =>
            if isKw setT "SET" then
              match parseAssigns (rest2.length + 1) rest2 with
              | .error e => .error e
              | .ok (asn, rem) =>
                  match parseWhereTail rem with
                  | .error e => .error e
                  | .ok w => .ok (.update tn asn w)
            else .error (.syntaxError "expected SET after UPDATE")
        | _ => .error (.syntaxError "expected a table name after UPDATE")
      else if isKw t "DELETE" then
        match rest with
        | f :: .ident tn :: rem =>
            if isKw f "FROM" then
              match parseWhereTail rem with
              | .error e => .error e
              | .ok w => .ok (.delete tn w)
            else .error (.syntaxError "expected FROM after DELETE")
        | _ => .error (.syntaxError "expected FROM after DELETE")
      else if isKw t "CREATE" then
        match rest with
        | tb :: .ident tn :: .sym "(" :: rest2 =>
            if isKw tb "TABLE" then
              match parseColDefs (rest2.length + 1) rest2 with
              | .error e => .error e
              | .ok (cols, [.sym ")"]) => .ok (.createTable tn cols)
              | .ok (_, _) => .error (.syntaxError "expected ) after column definitions")
            else .error (.syntaxError "expected TABLE after CREATE")
        | _ => .error (.syntaxError "expected TABLE after CREATE")
      else if isKw t "DROP" then
        match rest with
        | tb :: [.ident tn] =>
            if isKw tb "TABLE" then .ok (.dropTable tn)
            else .error (.syntaxError "expected TABLE after DROP")
        | _ => .error (.syntaxError "expected TABLE after DROP")
      else if isKw t "ALTER" then
        match rest with
        | tb :: .ident tn :: ad :: rest2 =>
            if isKw tb "TABLE" && isKw ad "ADD" then
              match parseColDefs (rest2.length + 1) rest2 with
              | .error e => .error e
              | .ok ([c], []) => .ok (.alterAdd tn c)
              | .ok (_, _) => .error (.syntaxError "expected one column definition")
            else .error (.syntaxError "expected ADD after ALTER TABLE")
        | _ => .error (.syntaxError "expected ADD after ALTER TABLE")
      else .error (.syntaxError "unrecognized statement")
  | [] => .error (.syntaxError "empty statement")

/-- Modelled from the spec: the Statement Parser (§4.2) — tokenize the
whole batch, split on `;`, parse every statement; any failure is a
SyntaxError for the whole batch ("compile all, then run"). -/
def parseBatch (text : String) : Except SqlError (List Stmt) :=
  match tokenize text with
  | .error e => .error e
  | .ok toks => (splitStmts toks).mapM parseStmt

/-! ## Session Controller (§4.5) and Schema Introspector (§4.4) -/

/-- Modelled from the spec: `execute` (§4.5) — parse the whole batch
first; a parse failure aborts before any statement executes, otherwise
the statements run in order. -/
def executeMockSql (text : String) (st : EngineState) : ExecResult × EngineState :=
  match parseBatch text with
  | .error e => (errorResult e, st)
  | .ok stmts => runStmts stmts st

/-- One column of the schema snapshot, with the field names the UI reads
(src/vite.config.ts lines 1599-1606: `c.name`, `c.type`,
`c.key === 'PK'`). -/
structure SchemaCol where
  name : String
  type : String
  key : Option String
deriving DecidableEq, Repr

/-- One table of the schema snapshot. -/
structure SchemaTable where
  name : String
  columns : List SchemaCol
deriving DecidableEq, Repr

/-- The schema snapshot, with the field names the UI reads
(src/vite.config.ts line 1345 and 1557-1582: `schema.currentDb`,
`schema.availableDbs`, `schema.tables`). -/
structure DbSchema where
  currentDb : String
  availableDbs : List String
  tables : List SchemaTable
deriving DecidableEq, Repr

/-- The displayed type name of a column (rendered in the sidebar's
schema explorer). -/
def typeDisplay : ColType → String
  | .integer => "INT"
  | .decimal => "DECIMAL"
  | .text => "VARCHAR"
  | .datetime => "DATETIME"
  | .boolean => "BIT"

/-- The snapshot of one table. -/
def schemaTableOf (t : Table) : SchemaTable :=
  { name := t.name
    columns := t.columns.map (fun c =>
      { name := c.name, type := typeDisplay c.type
        key := if c.isPrimaryKey then some "PK" else none }) }

/-- Are all NULL key values confined to a suffix of the list?  (The
formal content of "NULL sorts last".) -/
def nullsLast : List Value → Bool
  | [] => true
  | v :: vs =>
      if v == Value.nullV then vs.all (fun u => u == Value.nullV)
      else nullsLast vs

/-- Run a statement list for its state effects only; `none` as soon as
one statement fails. -/
def execLead : List Stmt → EngineState → Option EngineState
  | [], st => some st
  | s :: rest, st =>
      match execStmt s st with
      | .error _ => none
      | .ok (_, st') => execLead rest st'

/-- Modelled from the spec: `schema()` (§4.4) — a snapshot of the current
database's tables/columns/keys and the available database names,
reflecting the Catalog Store's current state; the field names are the
ones its in-src callers read (`currentDb`, `availableDbs`, `tables`,
column `key`). -/
def getDbSchema (st : EngineState) : DbSchema :=
  { currentDb := st.currentDb
    availableDbs := st.databases.map (·.name)
    tables :=
      (match findDb st st.currentDb with
       | none => []
       | some db => db.tables).map schemaTableOf }

/-- A JavaScript value, used to state claims about the literal field
names of the objects the engine returns. -/
inductive JsVal where
  | jstr (s : String)
  | jarr (xs : List JsVal)
  | jobj (fields : List (String × JsVal))

/-- Top-level keys of a JavaScript object. -/
def objKeys : JsVal → List String
  | .jobj fs => fs.map (·.1)
  | _ => []

/-- Field lookup in a JavaScript object. -/
def objGet (v : JsVal) (k : String) : Option JsVal :=
  match v with
  | .jobj fs => (fs.find? (fun f => f.1 == k)).map (·.2)
  | _ => none

/-- One snapshot column as its JavaScript object: keys `name`, `type`,
and — only when the key role is present — `key`. -/
def colJs (c : SchemaCol) : JsVal :=
  .jobj (("name", .jstr c.name) :: ("type", .jstr c.type) ::
    (match c.key with
     | some k => [("key", JsVal.jstr k)]
     | none => []))

/-- One snapshot table as its JavaScript object: keys `name` and
`columns`. -/
def tableJs (t : SchemaTable) : JsVal :=
  .jobj [("name", .jstr t.name), ("columns", .jarr (t.columns.map colJs))]

/-- The schema snapshot as the JavaScript object the callers receive:
keys `currentDb`, `availableDbs` and `tables`. -/
def schemaJs (s : DbSchema) : JsVal :=
  .jobj
    [("currentDb", .jstr s.currentDb),
     ("availableDbs", .jarr (s.availableDbs.map .jstr)),
     ("tables", .jarr (s.tables.map tableJs))]

/-- The snapshot of one column (the `key` role is "PK" exactly for
primary-key columns). -/
def colSchemaOf (c : Column) : SchemaCol :=
  { name := c.name, type := typeDisplay c.type
    key := if c.isPrimaryKey then some "PK" else none }

/-- `getDbSchema()` as the JavaScript object seen by the UI. -/
def getDbSchemaJs (st : EngineState) : JsVal :=
  schemaJs (getDbSchema st)

/-! ## Seed data (§6)

Modelled from the spec: three fixed databases — UniversityDB (students,
courses, enrollments), ShopDB (products, orders), LibraryDB (books,
loans); names as surfaced by the application UI.  The exact seeded rows
are not in the provided sources; a small fixed deterministic content
stands in for them, which is all the claims about the seed require
(fixed set of three databases, deterministic content, University as the
default). -/

/-- An INT column. -/
def intCol (n : String) (pk : Bool) : Column :=
  { name := n, type := .integer, nullable := !pk, isPrimaryKey := pk }

/-- A VARCHAR column. -/
def strCol (n : String) : Column :=
  { name := n, type := .text, nullable := true, isPrimaryKey := false }

/-- Seeded STUDENTS table of UniversityDB. -/
def studentsSeed : Table :=
  { name := "STUDENTS"
    columns := [intCol "ID" true, strCol "NAME", intCol "AGE" false, strCol "MAJOR"]
    rows :=
      [[.intV 1, .textV "Ali", .intV 20, .textV "CS"],
       [.intV 2, .textV "Sara", .intV 22, .textV "Math"],
       [.intV 3, .textV "Omar", .intV 21, .nullV],
       [.intV 4, .textV "Lina", .intV 23, .textV "CS"]] }

/-- Seeded UniversityDB. -/
def universityDb : Database :=
  { name := "UniversityDB"
    tables :=
      [studentsSeed,
       { name := "COURSES"
         columns := [intCol "ID" true, strCol "TITLE", intCol "CREDITS" false]
         rows :=
           [[.intV 101, .textV "Databases", .intV 3],
            [.intV 102, .textV "Algorithms", .intV 4]] },
       { name := "ENROLLMENTS"
         columns := [intCol "ID" true, intCol "STUDENT_ID" false, intCol "COURSE_ID" false]
         rows :=
           [[.intV 1, .intV 1, .intV 101],
            [.intV 2, .intV 2, .intV 101],
            [.intV 3, .intV 1, .intV 102]] }] }

/-- Seeded ShopDB. -/
def shopDb : Database :=
  { name := "ShopDB"
    tables :=
      [{ name := "PRODUCTS"
         columns := [intCol "ID" true, strCol "NAME", intCol "PRICE" false]
         rows :=
           [[.intV 1, .textV "Laptop", .intV 3500],
            [.intV 2, .textV "Mouse", .intV 50],
            [.intV 3, .textV "Keyboard", .intV 120]] },
       { name := "ORDERS"
         columns := [intCol "ID" true, intCol "PRODUCT_ID" false, intCol "QTY" false]
         rows :=
           [[.intV 1, .intV 1, .intV 1],
            [.intV 2, .intV 3, .intV 2]] }] }

/-- Seeded LibraryDB. -/
def libraryDb : Database :=
  { name := "LibraryDB"
    tables :=
      [{ name := "BOOKS"
         columns := [intCol "ID" true, strCol "TITLE", strCol "AUTHOR"]
         rows :=
           [[.intV 1, .textV "SQL Basics", .textV "N. Codd"],
            [.intV 2, .textV "Data Modeling", .textV "P. Chen"]] },
       { name := "LOANS"
         columns := [intCol "ID" true, intCol "BOOK_ID" false, strCol "MEMBER"]
         rows := [[.intV 1, .intV 2, .textV "Huda"]] }] }

/-- Modelled from the spec: the fixed seeded catalog — exactly the three
databases, with the session pointing at the default UniversityDB. -/
def seedState : EngineState :=
  { databases := [universityDb, shopDb, libraryDb], currentDb := "UniversityDB" }

/-- Modelled from the spec: `reset()` (§4.5, §4.1 `reset_to_seed`) —
replaces all three databases with their fixed seed content, re-points
the session to the default database and returns a confirmation
status. -/
def resetDb (_st : EngineState) : ExecResult × EngineState :=
  ({ message := some "All databases have been reset." }, seedState)

/-- The names of the databases of a state. -/
def dbNames (st : EngineState) : List String :=
  st.databases.map (·.name)

/-- The full row content of a state, per database and table. -/
def rowContent (st : EngineState) : List (String × List (String × List (List Value))) :=
  st.databases.map (fun d => (d.name, d.tables.map (fun t => (t.name, t.rows))))

/-- Is the result tabular (columns and rows)? -/
def isTab (r : ExecResult) : Bool :=
  r.columns.isSome && r.rows.isSome

/-- Is the result a status message? -/
def isMsg (r : ExecResult) : Bool :=
  r.message.isSome

/-- Is the result an error? -/
def isErr (r : ExecResult) : Bool :=
  r.error.isSome

/-- Exactly one of tabular / message / error is populated, and columns
and rows are populated together. -/
def exactlyOneKind (r : ExecResult) : Bool :=
  ((isTab r && !isMsg r && !isErr r)
    || (!isTab r && isMsg r && !isErr r)
    || (!isTab r && !isMsg r && isErr r))
  && (r.columns.isSome == r.rows.isSome)
  && (!r.rowsAffected.isSome || isMsg r)

end MasterSql

namespace MasterSql

/-- C9: the two CSV exporters, `ResultViewer.handleDownloadCsv` and
`PlaygroundPage.handleDownloadCSV`, produce character-for-character
identical CSV text for every result with the same columns and rows:
a comma-joined header line, then one line per row where a null cell is
the empty string and every non-null cell is double-quoted with inner
quotes doubled. -/
theorem csv_exporters_identical :
    (∀ columns rows, handleDownloadCsvText columns rows = handleDownloadCSVText columns rows)
    ∧ handleDownloadCsvText ["A", "B"]
        [[Value.intV 1, Value.nullV], [Value.textV "x\"y", Value.boolV true]]
      = "A,B\n\"1\",\n\"x\"\"y\",\"true\"" := by
  constructor
  · intro columns rows
    rfl
  · rfl

/-- C10: on every editor input, when the suggestion box is shown, its list
has at most 10 entries, every entry's label starts (case-insensitively)
with the word immediately before the caret, and that word is non-empty
with at least one candidate matching. -/
theorem autocomplete_suggestions_sound
    (prev : SuggestState) (candidates : List Candidate) (val : String) (caretPos : Nat)
    (hvis : (handleInput prev candidates val caretPos).visible = true) :
    (handleInput prev candidates val caretPos).list.length ≤ 10
    ∧ (∀ c ∈ (handleInput prev candidates val caretPos).list,
        jsStartsWith (jsToUpper c.label) (jsToUpper (currentWordAt val caretPos)) = true)
    ∧ currentWordAt val caretPos ≠ ""
    ∧ ∃ c ∈ candidates,
        jsStartsWith (jsToUpper c.label) (jsToUpper (currentWordAt val caretPos)) = true := by
  by_cases hw : (currentWordAt val caretPos).length > 0
  · by_cases hm : (matchesFor candidates (currentWordAt val caretPos)).length > 0
    · have hout : handleInput prev candidates val caretPos =
        { list := matchesFor candidates (currentWordAt val caretPos)
          activeIndex := 0, visible := true } := by
        simp [handleInput, hw, hm]
      rw [hout]
      refine ⟨?_, ?_, ?_, ?_⟩
      · exact List.length_take_le 10 _
      · intro c hc
        have := List.mem_of_mem_take hc
        exact (List.mem_filter.mp this).2
      · intro h0
        rw [h0] at hw
        simp at hw
      · rcases List.exists_mem_of_length_pos hm with ⟨c, hc⟩
        have hc' := List.mem_of_mem_take hc
        exact ⟨c, (List.mem_filter.mp hc').1, (List.mem_filter.mp hc').2⟩
    · have : handleInput prev candidates val caretPos = { prev with visible := false } := by
        simp [handleInput, hw, hm]
      rw [this] at hvis
      exact absurd hvis (by simp)
  · have : handleInput prev candidates val caretPos = { prev with visible := false } := by
      simp [handleInput, hw]
    rw [this] at hvis
    exact absurd hvis (by simp)

/-- Witness for C10: concrete run of `handleInput` on the keyword
candidates with the text "SEL" and the caret after it. -/
theorem autocomplete_suggestions_sound_witness :
    (handleInput ⟨[], 0, false⟩ sqlKeywordCandidates "SEL" 3).visible = true
    ∧ ((handleInput ⟨[], 0, false⟩ sqlKeywordCandidates "SEL" 3).list.length ≤ 10
       ∧ (∀ c ∈ (handleInput ⟨[], 0, false⟩ sqlKeywordCandidates "SEL" 3).list,
           jsStartsWith (jsToUpper c.label) (jsToUpper (currentWordAt "SEL" 3)) = true)
       ∧ currentWordAt "SEL" 3 ≠ ""
       ∧ ∃ c ∈ sqlKeywordCandidates,
           jsStartsWith (jsToUpper c.label) (jsToUpper (currentWordAt "SEL" 3)) = true) := by
  refine ⟨by decide, autocomplete_suggestions_sound ⟨[], 0, false⟩
    sqlKeywordCandidates "SEL" 3 (by decide)⟩

/-- C6: `resetDb` is idempotent — two consecutive calls yield the same
state, hence identical schema snapshots and identical row content, and
each call re-points the session to the default database. -/
theorem reset_idempotent (st : EngineState) :
    (resetDb (resetDb st).2).2 = (resetDb st).2
    ∧ getDbSchema (resetDb (resetDb st).2).2 = getDbSchema (resetDb st).2
    ∧ rowContent (resetDb (resetDb st).2).2 = rowContent (resetDb st).2
    ∧ (resetDb st).2 = seedState
    ∧ (resetDb st).2.currentDb = "UniversityDB" := by
  exact ⟨rfl, rfl, rfl, rfl, rfl⟩

theorem runStmts_cons_ok_more (s s2 : Stmt) (rest : List Stmt)
    (st st' : EngineState) (r : ExecResult)
    (h : execStmt s st = .ok (r, st')) :
    runStmts (s :: s2 :: rest) st = runStmts (s2 :: rest) st' := by
  rw [runStmts, h]

/-- C5: for a database present in the catalog, `USE db` switches the
session's current database; the schema snapshot taken afterwards reports
`currentDb = db` with exactly that database's tables; and in a batch the
following statements run against the switched state. -/
theorem use_db_switches (st : EngineState) (db : Database) (n : String)
    (h : findDb st n = some db) :
    execStmt (.useDb n) st =
      .ok ({ message := some ("Changed database context to '" ++ n ++ "'.") },
           { st with currentDb := n })
    ∧ (getDbSchema { st with currentDb := n }).currentDb = n
    ∧ (getDbSchema { st with currentDb := n }).tables = db.tables.map schemaTableOf
    ∧ ∀ s2 rest, runStmts (.useDb n :: s2 :: rest) st
        = runStmts (s2 :: rest) { st with currentDb := n } := by
  have hdb : findDb { st with currentDb := n } n = some db := h
  have hex : execStmt (.useDb n) st =
      .ok ({ message := some ("Changed database context to '" ++ n ++ "'.") },
           { st with currentDb := n }) := by
    simp [execStmt, h]
  refine ⟨hex, rfl, ?_, ?_⟩
  · simp [getDbSchema, hdb]
  · intro s2 rest
    exact runStmts_cons_ok_more _ s2 rest st _ _ hex

/-- Witness for C5: `USE ShopDB` on the seeded catalog. -/
theorem use_db_switches_witness :
    execStmt (.useDb "ShopDB") seedState =
      .ok ({ message := some "Changed database context to 'ShopDB'." },
           { seedState with currentDb := "ShopDB" })
    ∧ (getDbSchema { seedState with currentDb := "ShopDB" }).currentDb = "ShopDB"
    ∧ (getDbSchema { seedState with currentDb := "ShopDB" }).tables
        = shopDb.tables.map schemaTableOf := by
  have h := use_db_switches seedState shopDb "ShopDB" (by rfl)
  exact ⟨h.1, h.2.1, h.2.2.1⟩

/-- Replacing a database by one of the same name preserves the name. -/
theorem name_of_put (d db' : Database) :
    (if d.name == db'.name then db' else d).name = d.name := by
  by_cases h : d.name == db'.name
  · simp only [h, if_true]
    exact (beq_iff_eq.mp h).symm
  · simp [h]

/-- `putDb` preserves the catalog's database names. -/
theorem putDb_dbNames (st : EngineState) (db' : Database) :
    dbNames (putDb st db') = dbNames st := by
  simp only [dbNames, putDb, List.map_map]
  exact List.map_congr_left (fun d _ => name_of_put d db')

/-- A successful statement never creates or removes a database. -/
theorem execStmt_dbNames (s : Stmt) (st : EngineState) (r : ExecResult)
    (st' : EngineState) (h : execStmt s st = .ok (r, st')) :
    dbNames st' = dbNames st := by
  cases s <;>
    (simp only [execStmt] at h
     repeat' split at h
     all_goals
       first
       | exact Except.noConfusion h
       | (simp only [Except.ok.injEq, Prod.mk.injEq] at h
          obtain ⟨hr, hs⟩ := h
          subst hs
          first
          | rfl
          | exact putDb_dbNames st _))

/-- Every successful statement result is of exactly one kind. -/
theorem execStmt_kind (s : Stmt) (st : EngineState) (r : ExecResult)
    (st' : EngineState) (h : execStmt s st = .ok (r, st')) :
    exactlyOneKind r = true := by
  cases s <;>
    (simp only [execStmt] at h
     repeat' split at h
     all_goals
       first
       | exact Except.noConfusion h
       | (simp only [Except.ok.injEq, Prod.mk.injEq] at h
          obtain ⟨hr, hs⟩ := h
          subst hr
          simp [exactlyOneKind, isTab, isMsg, isErr]))

/-- Batch execution never creates or removes a database. -/
theorem runStmts_dbNames (stmts : List Stmt) (st : EngineState) :
    dbNames (runStmts stmts st).2 = dbNames st := by
  induction stmts generalizing st with
  | nil => rfl
  | cons s rest ih =>
      cases hex : execStmt s st with
      | error e => rw [runStmts, hex]
      | ok p =>
          obtain ⟨r, st'⟩ := p
          have hn := execStmt_dbNames s st r st' hex
          cases rest with
          | nil => rw [runStmts, hex]; exact hn
          | cons s2 rest2 =>
              rw [runStmts, hex]
              rw [ih st']
              exact hn

/-- Every batch result is of exactly one kind. -/
theorem runStmts_kind (stmts : List Stmt) (st : EngineState) :
    exactlyOneKind (runStmts stmts st).1 = true := by
  induction stmts generalizing st with
  | nil => rfl
  | cons s rest ih =>
      cases hex : execStmt s st with
      | error e =>
          rw [runStmts, hex]
          simp [errorResult, exactlyOneKind, isTab, isMsg, isErr]
      | ok p =>
          obtain ⟨r, st'⟩ := p
          cases rest with
          | nil =>
              rw [runStmts, hex]
              exact execStmt_kind s st r st' hex
          | cons s2 rest2 =>
              rw [runStmts, hex]
              exact ih st'

/-- C8: the catalog is fixed at exactly the three seeded databases
(University, Shop, Library): no batch can create or remove a database,
`resetDb` always restores the same seeded state, and the seeded row
content is identical after every reset. -/
theorem fixed_three_databases :
    dbNames seedState = ["UniversityDB", "ShopDB", "LibraryDB"]
    ∧ (∀ text st, dbNames (executeMockSql text st).2 = dbNames st)
    ∧ (∀ st, (resetDb st).2 = seedState)
    ∧ (∀ st, rowContent (resetDb st).2 = rowContent seedState) := by
  refine ⟨rfl, ?_, fun _ => rfl, fun _ => rfl⟩
  intro text st
  unfold executeMockSql
  cases hp : parseBatch text with
  | error e => rfl
  | ok stmts => exact runStmts_dbNames stmts st

/-- C4: every `executeMockSql` call populates exactly one of the three
result alternatives — tabular (columns with rows), status message
(with optional rowsAffected), or error — never two and never none. -/
theorem result_exactly_one_kind (text : String) (st : EngineState) :
    exactlyOneKind (executeMockSql text st).1 = true := by
  unfold executeMockSql
  cases hp : parseBatch text with
  | error e => simp [errorResult, exactlyOneKind, isTab, isMsg, isErr]
  | ok stmts => exact runStmts_kind stmts st

/-- A failing head statement yields its error with the state unchanged. -/
theorem runStmts_cons_err (s : Stmt) (rest : List Stmt) (st : EngineState)
    (e : SqlError) (h : execStmt s st = .error e) :
    runStmts (s :: rest) st = (errorResult e, st) := by
  rw [runStmts, h]

/-- C3: batches are parsed in full before anything executes — a parse
failure anywhere aborts the whole batch with the catalog unchanged —
while during execution the first failing statement halts the batch,
its error is the batch's result, the statements before it keep their
effects (no rollback) and the statements after it never run. -/
theorem batch_parse_then_execute (text : String) (st : EngineState) :
    (∀ e, parseBatch text = .error e → executeMockSql text st = (errorResult e, st))
    ∧ (∀ stmts, parseBatch text = .ok stmts → executeMockSql text st = runStmts stmts st)
    ∧ (∀ (lead : List Stmt) (s : Stmt) (post : List Stmt) (st1 : EngineState)
         (e : SqlError), execLead lead st = some st1 → execStmt s st1 = .error e →
           runStmts (lead ++ s :: post) st = (errorResult e, st1)) := by
  refine ⟨?_, ?_, ?_⟩
  · intro e hp
    unfold executeMockSql
    rw [hp]
  · intro stmts hp
    unfold executeMockSql
    rw [hp]
  · intro lead
    induction lead generalizing st with
    | nil =>
        intro s post st1 e hlead hfail
        simp only [execLead, Option.some.injEq] at hlead
        subst hlead
        exact runStmts_cons_err s post st e hfail
    | cons p ps ih =>
        intro s post st1 e hlead hfail
        simp only [execLead] at hlead
        cases hex : execStmt p st with
        | error e2 => rw [hex] at hlead; exact Option.noConfusion hlead
        | ok pr =>
            obtain ⟨r2, st2⟩ := pr
            rw [hex] at hlead
            have step : runStmts (p :: (ps ++ s :: post)) st
                = runStmts (ps ++ s :: post) st2 := by
              cases ps with
              | nil => exact runStmts_cons_ok_more p s post st st2 r2 hex
              | cons p2 ps2 =>
                  exact runStmts_cons_ok_more p p2 (ps2 ++ s :: post) st st2 r2 hex
            calc runStmts ((p :: ps) ++ s :: post) st
                = runStmts (ps ++ s :: post) st2 := step
              _ = (errorResult e, st1) := ih st2 s post st1 e hlead hfail

/-- Witness for C3: a batch whose second statement fails keeps the first
statement's effect (the switch to ShopDB) and never runs the third; a
batch that fails to parse leaves the seeded state untouched. -/
theorem batch_parse_then_execute_witness :
    executeMockSql "SELEC * FROM X" seedState
      = (errorResult (.syntaxError "unrecognized statement"), seedState)
    ∧ runStmts [.useDb "ShopDB", .useDb "NoDb", .useDb "LibraryDB"] seedState
      = (errorResult (.unknownDatabase "NoDb"),
         { seedState with currentDb := "ShopDB" }) := by
  constructor
  · exact (batch_parse_then_execute "SELEC * FROM X" seedState).1
      (.syntaxError "unrecognized statement") (by rfl)
  · have h := (batch_parse_then_execute "USE ShopDB;" seedState).2.2
      [.useDb "ShopDB"] (.useDb "NoDb") [.useDb "LibraryDB"]
      { seedState with currentDb := "ShopDB" } (.unknownDatabase "NoDb")
      (by rfl) (by rfl)
    simpa using h

/-- Stable insertion permutes. -/
theorem insertSorted_perm {α : Type} (le : α → α → Bool) (x : α) (l : List α) :
    (insertSorted le x l).Perm (x :: l) := by
  induction l with
  | nil => exact List.Perm.refl _
  | cons y ys ih =>
      unfold insertSorted
      split
      · exact List.Perm.refl _
      · exact (ih.cons y).trans (List.Perm.swap x y ys)

/-- Insertion sort permutes. -/
theorem sortByLE_perm {α : Type} (le : α → α → Bool) (l : List α) :
    (sortByLE le l).Perm l := by
  induction l with
  | nil => exact List.Perm.refl _
  | cons x xs ih => exact (insertSorted_perm le x (sortByLE le xs)).trans (ih.cons x)

/-- Inserting an element whose key ties only with elements it precedes
keeps every key class's subsequence intact (stability, one step). -/
theorem filter_insertSorted {α β : Type} [BEq β] [LawfulBEq β] (le : α → α → Bool)
    (keyT : α → β) (hk : ∀ a b, keyT a = keyT b → le a b = true)
    (x : α) (l : List α) (k : β) :
    (insertSorted le x l).filter (fun r => keyT r == k)
      = (if keyT x == k then x :: l.filter (fun r => keyT r == k)
         else l.filter (fun r => keyT r == k)) := by
  induction l with
  | nil => by_cases hx : keyT x == k <;> simp [insertSorted, List.filter, hx]
  | cons y ys ih =>
      unfold insertSorted
      split
      · by_cases hx : keyT x == k <;> simp [List.filter, hx]
      · case isFalse hle =>
          by_cases hx : keyT x == k
          · have hy : ¬ (keyT y == k) = true := by
              intro hy
              apply hle
              exact hk x y (by rw [beq_iff_eq.mp hx, beq_iff_eq.mp hy])
            simp only [List.filter, ih, hx, if_true]
            simp [hy]
          · simp only [List.filter, ih, hx, if_false]
            cases hy : (keyT y == k) <;> simp

/-- Insertion sort is stable: every key class keeps its original
subsequence. -/
theorem filter_sortByLE {α β : Type} [BEq β] [LawfulBEq β] (le : α → α → Bool)
    (keyT : α → β) (hk : ∀ a b, keyT a = keyT b → le a b = true)
    (l : List α) (k : β) :
    (sortByLE le l).filter (fun r => keyT r == k)
      = l.filter (fun r => keyT r == k) := by
  induction l with
  | nil => rfl
  | cons x xs ih =>
      rw [sortByLE, filter_insertSorted le keyT hk x _ k]
      by_cases hx : keyT x == k <;> simp [List.filter, hx, ih]

/-- Inserting under a comparator that sends NULL keys to the end
preserves the null-suffix property. -/
theorem nullsLast_insertSorted {α : Type} (le : α → α → Bool) (key : α → Value)
    (hA : ∀ x y, le x y = true → key x = .nullV → key y = .nullV)
    (hB : ∀ x y, le x y = false → ¬ key y = .nullV)
    (x : α) (l : List α) (hl : nullsLast (l.map key) = true) :
    nullsLast ((insertSorted le x l).map key) = true := by
  induction l with
  | nil => by_cases hx : key x = Value.nullV <;> simp [insertSorted, nullsLast, hx]
  | cons y ys ih =>
      unfold insertSorted
      split
      · case isTrue hle =>
          by_cases hx : key x = Value.nullV
          · have hy := hA x y hle hx
            have hys : (List.map key ys).all (fun u => u == Value.nullV) = true := by
              simpa [nullsLast, hy] using hl
            simp [nullsLast, hx, hy, hys]
          · simpa [nullsLast, hx] using hl
      · case isFalse hle =>
          have hy : ¬ key y = Value.nullV := hB x y (by simpa using hle)
          have hl2 : nullsLast (List.map key ys) = true := by
            simpa [nullsLast, hy] using hl
          simpa [nullsLast, hy] using ih hl2

/-- Sorting under a null-last comparator yields a null suffix. -/
theorem nullsLast_sortByLE {α : Type} (le : α → α → Bool) (key : α → Value)
    (hA : ∀ x y, le x y = true → key x = .nullV → key y = .nullV)
    (hB : ∀ x y, le x y = false → ¬ key y = .nullV)
    (l : List α) :
    nullsLast ((sortByLE le l).map key) = true := by
  induction l with
  | nil => rfl
  | cons x xs ih => exact nullsLast_insertSorted le key hA hB x _ ih

/-- Every value compares equal to itself. -/
theorem valCmpTotal_self (a : Value) : valCmpTotal a a = .eq := by
  cases a <;> simp [valCmpTotal, cmpInt, cmpStr, cmpBool, cmpNat, rank]

/-- ORDER BY key comparison is reflexive. -/
theorem keyCmp_self (d : Bool) (a : Value) : keyCmp d a a = .eq := by
  cases a <;> cases d <;> simp [keyCmp, valCmpTotal_self, Ordering.swap]

/-- Nothing compares after NULL (NULL last in both directions). -/
theorem keyCmp_null_right (d : Bool) (a : Value) :
    ¬ keyCmp d a Value.nullV = .gt := by
  cases a <;> simp [keyCmp]

/-- NULL compares after every non-null value in both directions. -/
theorem keyCmp_null_left (d : Bool) (b : Value) (hb : ¬ b = Value.nullV) :
    keyCmp d Value.nullV b = .gt := by
  cases b <;> simp_all [keyCmp]

/-- Lexicographic key comparison is reflexive. -/
theorem lexCmp_self (ks : List OrderKey) (t : List Value) :
    lexCmp ks t t = .eq := by
  induction ks generalizing t with
  | nil => cases t <;> rfl
  | cons k ks ih =>
      cases t with
      | nil => rfl
      | cons a as' => simp [lexCmp, keyCmp_self, ih]

/-- Single-key lexicographic comparison is the key comparison. -/
theorem lexCmp_single (k : OrderKey) (u v : Value) :
    lexCmp [k] [u] [v] = keyCmp k.desc u v := by
  cases h : keyCmp k.desc u v <;> simp [lexCmp, h]

/-- Rows with equal key tuples never strictly precede one another. -/
theorem rowLE_of_keyTuple_eq (cols : List String) (ks : List OrderKey)
    (a b : List Value) (h : keyTuple cols ks a = keyTuple cols ks b) :
    rowLE cols ks a b = true := by
  simp only [rowLE, h, lexCmp_self]
  decide

/-- Under a single ORDER BY key, a row that does not come after a
NULL-key row has a NULL key itself. -/
theorem rowLE_null_propagates (cols : List String) (k : OrderKey)
    (a b : List Value) (hle : rowLE cols [k] a b = true)
    (ha : evalExpr (cols.zip a) k.e = Value.nullV) :
    evalExpr (cols.zip b) k.e = Value.nullV := by
  by_contra hb
  have hgt : keyCmp k.desc (evalExpr (cols.zip a) k.e) (evalExpr (cols.zip b) k.e)
      = .gt := by
    rw [ha]
    exact keyCmp_null_left k.desc _ hb
  simp only [rowLE, keyTuple, List.map_cons, List.map_nil, lexCmp_single, hgt] at hle
  exact absurd hle (by decide)

/-- Under the ORDER BY comparator no row comes strictly after a
NULL-key row. -/
theorem rowLE_false_right_not_null (cols : List String) (k : OrderKey)
    (a b : List Value) (hle : rowLE cols [k] a b = false) :
    ¬ evalExpr (cols.zip b) k.e = Value.nullV := by
  intro hb
  simp only [rowLE, keyTuple, List.map_cons, List.map_nil, lexCmp_single] at hle
  rw [hb] at hle
  cases hc : keyCmp k.desc (evalExpr (cols.zip a) k.e) Value.nullV with
  | gt => exact keyCmp_null_right k.desc _ hc
  | lt => rw [hc] at hle; exact absurd hle (by decide)
  | eq => rw [hc] at hle; exact absurd hle (by decide)

/-- C7: SELECT evaluation follows the §4.3 pipeline — resolve FROM/JOIN
(nested-loop; unmatched LEFT sides null-padded), then WHERE, then
GROUP BY bucketing, then HAVING, then projection, then a stable ORDER BY
whose NULL keys sort last regardless of direction, then TOP row
limiting. -/
theorem select_evaluation_order
    (db : Database) (q : SelectQuery) (view : RelView)
    (cols : List String) (ks : List OrderKey) (k : OrderKey) (kt : List Value)
    (rows : List (List Value)) (n : Nat)
    (lcols : List String) (lrows : List Env) (rt : Table) (onE : Expr) (a : Env)
    (hres : resolveFrom db q = .ok view)
    (hmem : a ∈ lrows)
    (hnomatch : ∀ b ∈ rt.rows, truthy (evalExpr (a ++ envOfRow rt b) onE) = false) :
    evalSelect db q = .ok (selectPipeline q view)
    ∧ selectPipeline q view
        = ((effItems view q).map (·.outName),
           applyTop q.top (applyOrderBy ((effItems view q).map (·.outName)) q.orderBy
             (projectBuckets (effItems view q) (applyHaving q.having
               (groupRows q.groupBy ((effItems view q).any (fun it => hasAgg it.ae))
                 (applyWhere q.whereE view.rows))))))
    ∧ (applyOrderBy cols ks rows).Perm rows
    ∧ (applyOrderBy cols ks rows).filter (fun r => keyTuple cols ks r == kt)
        = rows.filter (fun r => keyTuple cols ks r == kt)
    ∧ nullsLast ((applyOrderBy cols [k] rows).map
        (fun r => evalExpr (cols.zip r) k.e)) = true
    ∧ applyTop (some n) rows = rows.take n
    ∧ (a ++ nullEnvOf (rt.columns.map (·.name))) ∈ joinRows .left lcols lrows rt onE := by
  refine ⟨?_, rfl, ?_, ?_, ?_, rfl, ?_⟩
  · simp [evalSelect, hres, Except.map]
  · exact sortByLE_perm _ rows
  · exact filter_sortByLE (rowLE cols ks) (keyTuple cols ks)
      (fun x y h => rowLE_of_keyTuple_eq cols ks x y h) rows kt
  · exact nullsLast_sortByLE (rowLE cols [k])
      (fun r => evalExpr (cols.zip r) k.e)
      (fun x y hle hx => rowLE_null_propagates cols k x y hle hx)
      (fun x y hle => rowLE_false_right_not_null cols k x y hle) rows
  · simp only [joinRows]
    apply List.mem_flatMap.mpr
    refine ⟨a, hmem, ?_⟩
    have hfil : (rt.rows.map (envOfRow rt)).filter
        (fun b => truthy (evalExpr (a ++ b) onE)) = [] := by
      rw [List.filter_eq_nil_iff]
      intro b hbmem
      rcases List.mem_map.mp hbmem with ⟨row, hrow, rfl⟩
      simp [hnomatch row hrow]
    rw [hfil]
    simp

/-- Witness for C7: a two-row ORDER BY (DESC) puts the NULL key last; a
concrete `SELECT * FROM STUDENTS ORDER BY NAME` evaluates through the
pipeline; a left-joined row with no partner is null-padded. -/
theorem select_evaluation_order_witness :
    evalSelect universityDb
      { star := true, items := [], table := "STUDENTS", joins := [],
        whereE := none, groupBy := [], having := none,
        orderBy := [⟨.col "NAME", false⟩], top := some 2 }
      = .ok (selectPipeline
          { star := true, items := [], table := "STUDENTS", joins := [],
            whereE := none, groupBy := [], having := none,
            orderBy := [⟨.col "NAME", false⟩], top := some 2 }
          { cols := studentsSeed.columns.map (·.name)
            rows := studentsSeed.rows.map (envOfRow studentsSeed) })
    ∧ nullsLast ((applyOrderBy ["A"] [⟨.col "A", true⟩]
        [[Value.nullV], [Value.intV 1]]).map
          (fun r => evalExpr ((["A"]).zip r) (Expr.col "A"))) = true
    ∧ ([("X", Value.intV 7)] ++ nullEnvOf
        ((⟨"R", [intCol "ID" true], [[Value.intV 1]]⟩ : Table).columns.map (·.name)))
        ∈ joinRows .left ["X"] [[("X", Value.intV 7)]]
          ⟨"R", [intCol "ID" true], [[Value.intV 1]]⟩ (.lit (.boolV false)) := by
  have h := select_evaluation_order universityDb
    { star := true, items := [], table := "STUDENTS", joins := [],
      whereE := none, groupBy := [], having := none,
      orderBy := [⟨.col "NAME", false⟩], top := some 2 }
    { cols := studentsSeed.columns.map (·.name)
      rows := studentsSeed.rows.map (envOfRow studentsSeed) }
    ["A"] [⟨.col "A", true⟩] ⟨.col "A", true⟩ [Value.intV 1]
    [[Value.nullV], [Value.intV 1]] 1
    ["X"] [[("X", Value.intV 7)]] ⟨"R", [intCol "ID" true], [[Value.intV 1]]⟩
    (.lit (.boolV false)) [("X", Value.intV 7)]
    (by rfl) (by simp) (by decide)
  exact ⟨h.1, h.2.2.2.2.1, h.2.2.2.2.2.2⟩

/-- C1 counterexample: the schema object returned to the UI does not
carry fields named `currentDatabase` or `availableDatabases` (its keys
are `currentDb`, `availableDbs`, `tables`, as its in-src callers
read). -/
theorem schema_field_names_counterexample :
    ¬ ("currentDatabase" ∈ objKeys (getDbSchemaJs seedState)
       ∧ "availableDatabases" ∈ objKeys (getDbSchemaJs seedState)) := by
  intro hc
  have h1 := hc.1
  revert h1
  decide

/-- C1 (amended): every `getDbSchema()` result, as the JavaScript object
the UI receives, has exactly the top-level fields `currentDb`,
`availableDbs` and `tables`; each table object has fields `name` and
`columns`; each column object has fields `name` and `type`, plus a `key`
field equal to "PK" exactly for primary-key columns. -/
theorem schema_snapshot_shape (st : EngineState) (t : Table) (c : Column) :
    objKeys (getDbSchemaJs st) = ["currentDb", "availableDbs", "tables"]
    ∧ objGet (getDbSchemaJs st) "currentDb" = some (.jstr st.currentDb)
    ∧ objGet (getDbSchemaJs st) "tables"
        = some (.jarr ((getDbSchema st).tables.map tableJs))
    ∧ objKeys (tableJs (schemaTableOf t)) = ["name", "columns"]
    ∧ objKeys (colJs (colSchemaOf c))
        = (if c.isPrimaryKey then ["name", "type", "key"] else ["name", "type"])
    ∧ (c.isPrimaryKey = true →
        objGet (colJs (colSchemaOf c)) "key" = some (.jstr "PK"))
    ∧ (c.isPrimaryKey = false →
        objGet (colJs (colSchemaOf c)) "key" = none) := by
  refine ⟨rfl, rfl, rfl, rfl, ?_, ?_, ?_⟩
  · cases hpk : c.isPrimaryKey <;> simp [colJs, colSchemaOf, objKeys, hpk]
  · intro hpk
    simp [colJs, colSchemaOf, objGet, hpk]
  · intro hpk
    simp [colJs, colSchemaOf, objGet, hpk]

/-- Witness for C1 (amended): the seeded catalog and the seeded STUDENTS
ID column. -/
theorem schema_snapshot_shape_witness :
    objKeys (getDbSchemaJs seedState) = ["currentDb", "availableDbs", "tables"]
    ∧ objGet (colJs (colSchemaOf (intCol "ID" true))) "key" = some (.jstr "PK")
    ∧ objGet (colJs (colSchemaOf (strCol "NAME"))) "key" = none := by
  exact ⟨(schema_snapshot_shape seedState studentsSeed (intCol "ID" true)).1,
         (schema_snapshot_shape seedState studentsSeed
           (intCol "ID" true)).2.2.2.2.2.1 rfl,
         (schema_snapshot_shape seedState studentsSeed
           (strCol "NAME")).2.2.2.2.2.2 rfl⟩

end MasterSql
